import Mathlib

/-!
Verification of the email-generator feedback-loop workflow
(`email_feedback.py`): data model, draft/critique graph nodes, the
graph run loop, and the Gradio entry function `generate_email`.

The two language-model agents and the third-party helpers
(`format_as_xml`, the OpenAI backend) are external collaborators: they
are modelled as an explicit environment `Env` of oracle functions, one
per external call site.  Everything else (prompt construction, node
transitions, state updates, interest parsing, key lookup) is translated
directly from the source.
-/

namespace EmailGen

/-- `User` dataclass: plain record, no runtime validation (stdlib
`dataclass`, so the `EmailStr` annotation is never enforced). -/
structure User where
  name : String
  email : String
  interests : List String
deriving DecidableEq, Repr

/-- `State` dataclass: the per-run graph state.  `Msg` stands for the
opaque `ModelMessage` record type. -/
structure State (Msg : Type) where
  user : User
  write_agent_messages : List Msg
deriving DecidableEq, Repr

/-- `Email` dataclass produced by the writer agent. -/
structure Email where
  subject : String
  body : String
deriving DecidableEq, Repr

/-- The feedback agent's result type `EmailRequiresWrite | Email0k`. -/
inductive FeedbackData where
  | EmailRequiresWrite (feedback : String)
  | Email0k
deriving DecidableEq, Repr

/-- An exception raised by a backend agent call. -/
structure GenerationFailure where
  message : String
deriving DecidableEq, Repr

/-- The two graph node dataclasses `WriteEmail(email_feedback)` and
`Feedback(email)`. -/
inductive Node where
  | writeEmail (email_feedback : Option String)
  | feedback (email : Email)
deriving DecidableEq, Repr

/-- One backend capability call, recorded with the prompt it was given:
either a writer-agent (draft) call or a feedback-agent (critique) call. -/
inductive CallEvent where
  | draftCall (prompt : String)
  | critiqueCall (prompt : String)
deriving DecidableEq, Repr

/-- The external collaborators of one run: `format_as_xml` at its two
call sites, the email writer agent, and the feedback agent.  An agent
either returns its validated result (`result.data`, plus
`result.all_messages()` for the writer) or raises. -/
structure Env (Msg : Type) where
  formatUserXml : User → String
  formatCritiqueXml : User → Email → String
  writer : String → Except GenerationFailure (Email × List Msg)
  critic : String → Except GenerationFailure FeedbackData

/-- The hard-coded `user_xml` triple-quoted literal of the initial-draft
branch of `WriteEmail.run` (it names John Doe, not the run's user). -/
def initial_user_xml : String :=
  "\n            <examples>\n                <name>John Doe</name>\n                <email>john.joe@example.com</email>\n            </examples>\n            "

/-- Prompt construction in `WriteEmail.run`.  Python's
`if self.email_feedback:` is true exactly when the field is a non-empty
string, so `none` and `some ""` both take the initial-draft branch. -/
def writeEmailPrompt (formatUserXml : User → String) (user : User) :
    Option String → String
  | some f =>
      if f = "" then
        "Write a welcome email for the user:\n" ++ initial_user_xml
      else
        "Rewrite the email for the user:\n" ++ formatUserXml user
          ++ "\nFeedback: " ++ f
  | none => "Write a welcome email for the user:\n" ++ initial_user_xml

/-- One node execution (`.run`): returns the capability call it made
together with either the next node or the final email (`End`), plus the
updated state.  `WriteEmail.run` assigns `result.all_messages()` to
`state.write_agent_messages`; `Feedback.run` leaves the state alone. -/
def stepNode {Msg : Type} (env : Env Msg) (s : State Msg) :
    Node → CallEvent × Except GenerationFailure ((Node ⊕ Email) × State Msg)
  | Node.writeEmail fb =>
      let prompt := writeEmailPrompt env.formatUserXml s.user fb
      (CallEvent.draftCall prompt,
        match env.writer prompt with
        | Except.error e => Except.error e
        | Except.ok result =>
            Except.ok (Sum.inl (Node.feedback result.1),
              { s with write_agent_messages := result.2 }))
  | Node.feedback em =>
      let prompt := env.formatCritiqueXml s.user em
      (CallEvent.critiqueCall prompt,
        match env.critic prompt with
        | Except.error e => Except.error e
        | Except.ok (FeedbackData.EmailRequiresWrite f) =>
            Except.ok (Sum.inl (Node.writeEmail (some f)), s)
        | Except.ok FeedbackData.Email0k => Except.ok (Sum.inr em, s))

/-- Outcome of driving the graph: reached `End` with a final email,
aborted because an agent call raised, or ran out of fuel (the source
loop has no iteration bound). -/
inductive RunResult (Msg : Type) where
  | done (email : Email) (finalState : State Msg) (events : List CallEvent)
  | failed (e : GenerationFailure) (events : List CallEvent)
  | outOfFuel (node : Node) (s : State Msg) (events : List CallEvent)
deriving DecidableEq, Repr

/-- The `pydantic_graph` run loop used by `feedback_graph.run_sync`:
execute the current node, follow the returned node, stop at `End`,
propagate exceptions.  `fuel` bounds the number of node executions so
the model is total; `events` accumulates the capability calls made. -/
def runGraph {Msg : Type} (env : Env Msg) :
    Nat → Node → State Msg → List CallEvent → RunResult Msg
  | 0, n, s, evs => RunResult.outOfFuel n s evs
  | fuel + 1, n, s, evs =>
      match stepNode env s n with
      | (ev, Except.error e) => RunResult.failed e (evs ++ [ev])
      | (ev, Except.ok (Sum.inl next, s2)) =>
          runGraph env fuel next s2 (evs ++ [ev])
      | (ev, Except.ok (Sum.inr em, s2)) =>
          RunResult.done em s2 (evs ++ [ev])

/-- Number of writer-agent (draft) calls in an event trace. -/
def countDraftCalls (evs : List CallEvent) : Nat :=
  (evs.filter fun ev => match ev with
    | CallEvent.draftCall _ => true
    | CallEvent.critiqueCall _ => false).length

/-- Number of feedback-agent (critique) calls in an event trace. -/
def countCritiqueCalls (evs : List CallEvent) : Nat :=
  (evs.filter fun ev => match ev with
    | CallEvent.draftCall _ => false
    | CallEvent.critiqueCall _ => true).length

/-- The user of the final state exposed by a run, when one is exposed
(`done` and `outOfFuel` carry a state; an aborted run discards it). -/
def RunResult.finalUser? {Msg : Type} : RunResult Msg → Option User
  | RunResult.done _ s _ => some s.user
  | RunResult.failed _ _ => none
  | RunResult.outOfFuel _ s _ => some s.user

/-- Python `os.getenv(key, default)` over an explicit environment. -/
def osGetenv (environ : List (String × String)) (key dflt : String) : String :=
  (environ.lookup key).getD dflt

/-- Module-level key retrieval:
`os.getenv("OPENAI_API_KEY", "your-api-key-here")`. -/
def openai_api_key (environ : List (String × String)) : String :=
  osGetenv environ "OPENAI_API_KEY" "your-api-key-here"

/-- The characters Python's `str.strip()` removes (ASCII whitespace). -/
def pyIsSpace (c : Char) : Bool :=
  c = ' ' || c = '\t' || c = '\n' || c = '\x0d' || c = '\x0b' || c = '\x0c'

/-- Python `str.strip()`: drop leading and trailing whitespace. -/
def pyStrip (s : String) : String :=
  String.mk (((s.toList.dropWhile pyIsSpace).reverse.dropWhile pyIsSpace).reverse)

/-- Python `s.split(",")` on the character list: split at every comma,
keeping empty pieces. -/
def pySplitCommaList : List Char → List (List Char)
  | [] => [[]]
  | c :: cs =>
      if c = ',' then [] :: pySplitCommaList cs
      else
        match pySplitCommaList cs with
        | r :: rs => (c :: r) :: rs
        | [] => [[c]]

/-- Python `s.split(",")`. -/
def pySplitComma (s : String) : List String :=
  (pySplitCommaList s.toList).map String.mk

/-- The interests parse in `generate_email`:
`[interest.strip() for interest in interests.split(",") if interest.strip()]`. -/
def parseInterests (interests : String) : List String :=
  (pySplitComma interests).filterMap fun interest =>
    if pyStrip interest = "" then none else some (pyStrip interest)

/-- The graph-running part of `generate_email`: build the `User` and
`State` from the raw inputs (no validation is applied to `email`) and
run the graph from `WriteEmail()`. -/
def generate_email_run {Msg : Type} (env : Env Msg) (fuel : Nat)
    (name email interests : String) : RunResult Msg :=
  let interests_list := parseInterests interests
  let user_obj : User := { name := name, email := email, interests := interests_list }
  let state_obj : State Msg := { user := user_obj, write_agent_messages := [] }
  runGraph env fuel (Node.writeEmail none) state_obj []

/-- `generate_email`: run the graph and render
`"Subject: {subject}\n\n{body}"` (`none` when the model runs out of
fuel; an agent exception propagates as `Except.error`). -/
def generate_email {Msg : Type} (env : Env Msg) (fuel : Nat)
    (name email interests : String) :
    Except GenerationFailure (Option String) :=
  match generate_email_run env fuel name email interests with
  | RunResult.done final_email _ _ =>
      Except.ok (some ("Subject: " ++ final_email.subject ++ "\n\n"
        ++ final_email.body))
  | RunResult.failed e _ => Except.error e
  | RunResult.outOfFuel _ _ _ => Except.ok none

/-! Concrete fixtures used to instantiate the theorems below. -/

/-- The Scenario A user profile. -/
def janeUser : User :=
  { name := "Jane Doe", email := "jane@example.com"
  , interests := ["chess", "gardening"] }

/-- A fixed writer-agent output. -/
def emailA : Email := { subject := "Welcome to ABC", body := "Hello" }

/-- An environment whose critique agent always approves. -/
def envA : Env Nat :=
  { formatUserXml := fun u => u.name
  , formatCritiqueXml := fun u e => u.name ++ "|" ++ e.subject
  , writer := fun _ => Except.ok (emailA, [1])
  , critic := fun _ => Except.ok FeedbackData.Email0k }

/-- First draft in the revision environment `envB`. -/
def emB1 : Email := { subject := "s1", body := "b1" }

/-- Second draft in the revision environment `envB`. -/
def emB2 : Email := { subject := "s2", body := "b2" }

/-- An environment whose critique agent demands one revision of the
first draft (`emB1`) and approves the revised draft (`emB2`); the writer
answers the initial prompt with `emB1` and any other prompt with
`emB2`. -/
def envB : Env Nat :=
  { formatUserXml := fun _ => "<user/>"
  , formatCritiqueXml := fun _ e => e.subject
  , writer := fun p =>
      if p = "Write a welcome email for the user:\n" ++ initial_user_xml
      then Except.ok (emB1, [1]) else Except.ok (emB2, [2])
  , critic := fun p =>
      if p = "s1"
      then Except.ok (FeedbackData.EmailRequiresWrite "mention gardening")
      else Except.ok FeedbackData.Email0k }

/-- An environment whose writer agent always raises. -/
def envC : Env Nat :=
  { formatUserXml := fun u => u.name
  , formatCritiqueXml := fun u e => u.name ++ "|" ++ e.subject
  , writer := fun _ => Except.error { message := "boom" }
  , critic := fun _ => Except.ok FeedbackData.Email0k }

/-- C1: if the critique capability approves every document it is shown,
then from the start node the run makes exactly one draft call and one
critique call, terminates in `Done`, and returns the critiqued document
unchanged; the trace shows no call after the approving critique. -/
theorem c1_approved_first_call {Msg : Type} (env : Env Msg) (s : State Msg)
    (fuel : Nat) (hfuel : 2 ≤ fuel) (em : Email) (msgs : List Msg)
    (hw : env.writer (writeEmailPrompt env.formatUserXml s.user none) =
      Except.ok (em, msgs))
    (hc : env.critic (env.formatCritiqueXml s.user em) =
      Except.ok FeedbackData.Email0k) :
    runGraph env fuel (Node.writeEmail none) s [] =
      RunResult.done em { s with write_agent_messages := msgs }
        [CallEvent.draftCall (writeEmailPrompt env.formatUserXml s.user none),
         CallEvent.critiqueCall (env.formatCritiqueXml s.user em)] ∧
    countDraftCalls
        [CallEvent.draftCall (writeEmailPrompt env.formatUserXml s.user none),
         CallEvent.critiqueCall (env.formatCritiqueXml s.user em)] = 1 ∧
    countCritiqueCalls
        [CallEvent.draftCall (writeEmailPrompt env.formatUserXml s.user none),
         CallEvent.critiqueCall (env.formatCritiqueXml s.user em)] = 1 := by
  obtain ⟨k, rfl⟩ := Nat.exists_eq_add_of_le' hfuel
  refine ⟨?_, rfl, rfl⟩
  show runGraph env (k + 1 + 1) (Node.writeEmail none) s [] = _
  simp only [runGraph, stepNode, hw, hc, List.nil_append, List.cons_append,
    List.singleton_append]

/-- C1 witness: Scenario A in the always-approving environment `envA`. -/
theorem c1_approved_first_call_witness :
    runGraph envA 2 (Node.writeEmail none)
        { user := janeUser, write_agent_messages := ([] : List Nat) } [] =
      RunResult.done emailA { user := janeUser, write_agent_messages := [1] }
        [CallEvent.draftCall (writeEmailPrompt envA.formatUserXml janeUser none),
         CallEvent.critiqueCall (envA.formatCritiqueXml janeUser emailA)] ∧
    countDraftCalls
        [CallEvent.draftCall (writeEmailPrompt envA.formatUserXml janeUser none),
         CallEvent.critiqueCall (envA.formatCritiqueXml janeUser emailA)] = 1 ∧
    countCritiqueCalls
        [CallEvent.draftCall (writeEmailPrompt envA.formatUserXml janeUser none),
         CallEvent.critiqueCall (envA.formatCritiqueXml janeUser emailA)] = 1 :=
  c1_approved_first_call envA
    { user := janeUser, write_agent_messages := ([] : List Nat) } 2
    (by decide) emailA [1] rfl rfl

/-- C3: if the critique of the first draft demands a revision with
feedback `fb` and the critique of the revised draft approves, the run
makes exactly two draft calls and two critique calls, the second draft
call's prompt is built from `some fb` (the feedback of the first
critique), and the document returned is the second draft's output. -/
theorem c3_one_revision_run {Msg : Type} (env : Env Msg) (s : State Msg)
    (fuel : Nat) (hfuel : 4 ≤ fuel) (em1 em2 : Email)
    (msgs1 msgs2 : List Msg) (fb : String)
    (hw1 : env.writer (writeEmailPrompt env.formatUserXml s.user none) =
      Except.ok (em1, msgs1))
    (hc1 : env.critic (env.formatCritiqueXml s.user em1) =
      Except.ok (FeedbackData.EmailRequiresWrite fb))
    (hw2 : env.writer (writeEmailPrompt env.formatUserXml s.user (some fb)) =
      Except.ok (em2, msgs2))
    (hc2 : env.critic (env.formatCritiqueXml s.user em2) =
      Except.ok FeedbackData.Email0k) :
    runGraph env fuel (Node.writeEmail none) s [] =
      RunResult.done em2 { s with write_agent_messages := msgs2 }
        [CallEvent.draftCall (writeEmailPrompt env.formatUserXml s.user none),
         CallEvent.critiqueCall (env.formatCritiqueXml s.user em1),
         CallEvent.draftCall
           (writeEmailPrompt env.formatUserXml s.user (some fb)),
         CallEvent.critiqueCall (env.formatCritiqueXml s.user em2)] ∧
    countDraftCalls
        [CallEvent.draftCall (writeEmailPrompt env.formatUserXml s.user none),
         CallEvent.critiqueCall (env.formatCritiqueXml s.user em1),
         CallEvent.draftCall
           (writeEmailPrompt env.formatUserXml s.user (some fb)),
         CallEvent.critiqueCall (env.formatCritiqueXml s.user em2)] = 2 ∧
    countCritiqueCalls
        [CallEvent.draftCall (writeEmailPrompt env.formatUserXml s.user none),
         CallEvent.critiqueCall (env.formatCritiqueXml s.user em1),
         CallEvent.draftCall
           (writeEmailPrompt env.formatUserXml s.user (some fb)),
         CallEvent.critiqueCall (env.formatCritiqueXml s.user em2)] = 2 := by
  obtain ⟨k, rfl⟩ := Nat.exists_eq_add_of_le' hfuel
  refine ⟨?_, rfl, rfl⟩
  show runGraph env (k + 1 + 1 + 1 + 1) (Node.writeEmail none) s [] = _
  simp only [runGraph, stepNode, hw1, hc1, hw2, hc2, List.nil_append,
    List.cons_append, List.singleton_append]

set_option maxRecDepth 10000 in
/-- C3 witness: the one-revision scenario in environment `envB`. -/
theorem c3_one_revision_run_witness :
    runGraph envB 4 (Node.writeEmail none)
        { user := janeUser, write_agent_messages := ([] : List Nat) } [] =
      RunResult.done emB2 { user := janeUser, write_agent_messages := [2] }
        [CallEvent.draftCall (writeEmailPrompt envB.formatUserXml janeUser none),
         CallEvent.critiqueCall (envB.formatCritiqueXml janeUser emB1),
         CallEvent.draftCall
           (writeEmailPrompt envB.formatUserXml janeUser
             (some "mention gardening")),
         CallEvent.critiqueCall (envB.formatCritiqueXml janeUser emB2)] ∧
    countDraftCalls
        [CallEvent.draftCall (writeEmailPrompt envB.formatUserXml janeUser none),
         CallEvent.critiqueCall (envB.formatCritiqueXml janeUser emB1),
         CallEvent.draftCall
           (writeEmailPrompt envB.formatUserXml janeUser
             (some "mention gardening")),
         CallEvent.critiqueCall (envB.formatCritiqueXml janeUser emB2)] = 2 ∧
    countCritiqueCalls
        [CallEvent.draftCall (writeEmailPrompt envB.formatUserXml janeUser none),
         CallEvent.critiqueCall (envB.formatCritiqueXml janeUser emB1),
         CallEvent.draftCall
           (writeEmailPrompt envB.formatUserXml janeUser
             (some "mention gardening")),
         CallEvent.critiqueCall (envB.formatCritiqueXml janeUser emB2)] = 2 :=
  c3_one_revision_run envB
    { user := janeUser, write_agent_messages := ([] : List Nat) } 4
    (by decide) emB1 emB2 [1] [2] "mention gardening"
    (by rfl) (by rfl) (by rfl) (by rfl)

/-- C7: whenever the run is at a draft node (the initial one or any
revision) and the writer agent raises, the run aborts at once with that
failure: only the failing draft call is added to the trace — no critique
call follows it — and the failure raised is the one returned. -/
theorem c7_draft_failure_aborts {Msg : Type} (env : Env Msg) (s : State Msg)
    (fuel : Nat) (hfuel : 1 ≤ fuel) (fb : Option String)
    (evs : List CallEvent) (e : GenerationFailure)
    (hw : env.writer (writeEmailPrompt env.formatUserXml s.user fb) =
      Except.error e) :
    runGraph env fuel (Node.writeEmail fb) s evs =
      RunResult.failed e
        (evs ++ [CallEvent.draftCall
          (writeEmailPrompt env.formatUserXml s.user fb)]) ∧
    countCritiqueCalls
        [CallEvent.draftCall
          (writeEmailPrompt env.formatUserXml s.user fb)] = 0 := by
  obtain ⟨k, rfl⟩ := Nat.exists_eq_add_of_le' hfuel
  refine ⟨?_, rfl⟩
  show runGraph env (k + 1) (Node.writeEmail fb) s evs = _
  simp only [runGraph, stepNode, hw]

/-- C7 witness: the failing-writer environment `envC`. -/
theorem c7_draft_failure_aborts_witness :
    runGraph envC 1 (Node.writeEmail none)
        { user := janeUser, write_agent_messages := ([] : List Nat) } [] =
      RunResult.failed { message := "boom" }
        ([] ++ [CallEvent.draftCall
          (writeEmailPrompt envC.formatUserXml janeUser none)]) ∧
    countCritiqueCalls
        [CallEvent.draftCall
          (writeEmailPrompt envC.formatUserXml janeUser none)] = 0 :=
  c7_draft_failure_aborts envC
    { user := janeUser, write_agent_messages := ([] : List Nat) } 1
    (by decide) none [] { message := "boom" } rfl

/-- Neither node execution changes the `user` field of the state: the
only state write in the source is to `write_agent_messages`. -/
theorem stepNode_preserves_user {Msg : Type} (env : Env Msg) (s : State Msg)
    (n : Node) (ev : CallEvent) (nx : Node ⊕ Email) (s2 : State Msg)
    (h : stepNode env s n = (ev, Except.ok (nx, s2))) : s2.user = s.user := by
  cases n with
  | writeEmail fb =>
      simp only [stepNode] at h
      cases hw : env.writer (writeEmailPrompt env.formatUserXml s.user fb) with
      | error e => rw [hw] at h; simp at h
      | ok result =>
          rw [hw] at h
          have h2 := congrArg Prod.snd h
          simp at h2
          rw [← h2.2]
  | feedback em =>
      simp only [stepNode] at h
      cases hc : env.critic (env.formatCritiqueXml s.user em) with
      | error e => rw [hc] at h; simp at h
      | ok d =>
          rw [hc] at h
          cases d with
          | EmailRequiresWrite f =>
              have h2 := congrArg Prod.snd h
              simp at h2
              rw [← h2.2]
          | Email0k =>
              have h2 := congrArg Prod.snd h
              simp at h2
              rw [← h2.2]

/-- C9: the user profile in the workflow state is immutable across the
run: whenever the run exposes a final state (normal completion, or the
state at any fuel cutoff, i.e. after any number of transitions), its
`user` field is the one the run started with. -/
theorem c9_user_immutable {Msg : Type} (env : Env Msg) :
    ∀ (fuel : Nat) (n : Node) (s : State Msg) (evs : List CallEvent)
      (u : User),
      (runGraph env fuel n s evs).finalUser? = some u → u = s.user := by
  intro fuel
  induction fuel with
  | zero =>
      intro n s evs u h
      simp only [runGraph, RunResult.finalUser?, Option.some.injEq] at h
      exact h.symm
  | succ k ih =>
      intro n s evs u h
      rw [runGraph] at h
      rcases hstep : stepNode env s n with ⟨ev, r⟩
      rw [hstep] at h
      match r with
      | Except.error e =>
          simp [RunResult.finalUser?] at h
      | Except.ok (Sum.inl next, s2) =>
          have hu := ih next s2 (evs ++ [ev]) u h
          rw [hu]
          exact stepNode_preserves_user env s n ev (Sum.inl next) s2 hstep
      | Except.ok (Sum.inr em, s2) =>
          simp only [RunResult.finalUser?, Option.some.injEq] at h
          rw [h.symm]
          exact stepNode_preserves_user env s n ev (Sum.inr em) s2 hstep

/-- C9 witness: the Scenario A run in `envA` ends with the user it
started with. -/
theorem c9_user_immutable_witness :
    (runGraph envA 2 (Node.writeEmail none)
        { user := janeUser, write_agent_messages := ([] : List Nat) }
        []).finalUser? = some janeUser ∧
    janeUser =
      (State.mk janeUser ([] : List Nat)).user :=
  ⟨rfl, c9_user_immutable envA 2 (Node.writeEmail none)
    { user := janeUser, write_agent_messages := ([] : List Nat) } []
    janeUser rfl⟩

/-- The comprehension
`[i.strip() for i in l if i.strip()]` equals mapping `strip` over the
list and then dropping the empties. -/
theorem filterMap_trim_eq (l : List String) :
    (l.filterMap fun i => if pyStrip i = "" then none else some (pyStrip i)) =
      (l.map pyStrip).filter fun t => t ≠ "" := by
  induction l with
  | nil => rfl
  | cons a l ih =>
      by_cases h : pyStrip a = "" <;>
        simp [List.filterMap_cons, List.filter_cons, h, ih]

/-- C8: the entry surface parses the interests input as a
comma-separated list, trims each element and drops the elements that are
empty after trimming; on `"chess, , gardening,"` it yields
`["chess", "gardening"]`. -/
theorem c8_interests_parsing :
    (∀ s : String, parseInterests s =
      ((pySplitComma s).map pyStrip).filter fun t => t ≠ "") ∧
    parseInterests "chess, , gardening," = ["chess", "gardening"] := by
  refine ⟨fun s => filterMap_trim_eq (pySplitComma s), by decide⟩

/-- C10: at the draft node, feedback `some ""` takes the same
initial-draft branch as `none`, and the rewrite prompt is built exactly
when the feedback string is non-empty. -/
theorem c10_empty_feedback_is_initial :
    (∀ (fmt : User → String) (user : User),
      writeEmailPrompt fmt user (some "") = writeEmailPrompt fmt user none) ∧
    (∀ (fmt : User → String) (user : User) (f : String), f ≠ "" →
      writeEmailPrompt fmt user (some f) =
        "Rewrite the email for the user:\n" ++ fmt user
          ++ "\nFeedback: " ++ f) := by
  constructor
  · intro fmt user; rfl
  · intro fmt user f hf
    simp [writeEmailPrompt, hf]

/-- C10 witness: concrete instances of both branches. -/
theorem c10_empty_feedback_is_initial_witness :
    writeEmailPrompt (fun u => u.name) janeUser (some "") =
      writeEmailPrompt (fun u => u.name) janeUser none ∧
    writeEmailPrompt (fun u => u.name) janeUser (some "mention gardening") =
      "Rewrite the email for the user:\n" ++ (fun u : User => u.name) janeUser
        ++ "\nFeedback: " ++ "mention gardening" :=
  ⟨c10_empty_feedback_is_initial.1 (fun u => u.name) janeUser,
   c10_empty_feedback_is_initial.2 (fun u => u.name) janeUser
    "mention gardening" (by decide)⟩

/-- C2: the initial-draft prompt is a constant: it is the same for every
user and every `format_as_xml`, and equals the hard-coded John Doe
example text — it is not grounded in the user profile passed in. -/
theorem c2_initial_prompt_ignores_user :
    (∀ (fmt : User → String) (u1 u2 : User),
      writeEmailPrompt fmt u1 none = writeEmailPrompt fmt u2 none) ∧
    writeEmailPrompt (fun u => u.name) janeUser none =
      "Write a welcome email for the user:\n" ++ initial_user_xml :=
  ⟨fun _ _ _ => rfl, rfl⟩

/-- C4 counterexample: with no `OPENAI_API_KEY` in the environment, the
module-level key lookup succeeds and yields the placeholder string —
there is no failure at startup. -/
theorem c4_missing_key_counterexample :
    openai_api_key [] = "your-api-key-here" := rfl

/-- C4 amended: when the credential is absent from the process
environment, startup proceeds with the placeholder value
`"your-api-key-here"`; no configuration error is raised. -/
theorem c4_placeholder_fallback (environ : List (String × String))
    (h : environ.lookup "OPENAI_API_KEY" = none) :
    openai_api_key environ = "your-api-key-here" := by
  simp [openai_api_key, osGetenv, h]

/-- C4 witness: the empty environment lacks the key and gets the
placeholder. -/
theorem c4_placeholder_fallback_witness :
    ([] : List (String × String)).lookup "OPENAI_API_KEY" = none ∧
    openai_api_key [] = "your-api-key-here" :=
  ⟨rfl, c4_placeholder_fallback [] rfl⟩

set_option maxRecDepth 10000 in
/-- C5: the entry surface applies no validation to the email input: with
the syntactically invalid address `"not-an-email"` the run is not
rejected — the `User` is built with that address, the writer backend is
called, and the run completes normally. -/
theorem c5_no_email_validation :
    generate_email_run envA 2 "Jane Doe" "not-an-email" "chess" =
      RunResult.done emailA
        { user := { name := "Jane Doe", email := "not-an-email"
                  , interests := ["chess"] }
        , write_agent_messages := [1] }
        [CallEvent.draftCall (writeEmailPrompt envA.formatUserXml
            { name := "Jane Doe", email := "not-an-email"
            , interests := ["chess"] } none),
         CallEvent.critiqueCall (envA.formatCritiqueXml
            { name := "Jane Doe", email := "not-an-email"
            , interests := ["chess"] } emailA)] ∧
    countDraftCalls
        [CallEvent.draftCall (writeEmailPrompt envA.formatUserXml
            { name := "Jane Doe", email := "not-an-email"
            , interests := ["chess"] } none),
         CallEvent.critiqueCall (envA.formatCritiqueXml
            { name := "Jane Doe", email := "not-an-email"
            , interests := ["chess"] } emailA)] = 1 ∧
    generate_email envA 2 "Jane Doe" "not-an-email" "chess" =
      Except.ok (some ("Subject: " ++ emailA.subject ++ "\n\n"
        ++ emailA.body)) :=
  ⟨rfl, rfl, rfl⟩

set_option maxRecDepth 10000 in
/-- C6 counterexample: in `envB` the first draft call's exchange is
`[1]`, yet after the second draft call the history is `[2]` alone — the
first exchange has been dropped, so the history does not contain the
exchanges of all draft calls. -/
theorem c6_history_overwritten_counterexample :
    envB.writer (writeEmailPrompt envB.formatUserXml janeUser none) =
      Except.ok (emB1, [1]) ∧
    runGraph envB 4 (Node.writeEmail none)
        { user := janeUser, write_agent_messages := ([] : List Nat) } [] =
      RunResult.done emB2 { user := janeUser, write_agent_messages := [2] }
        [CallEvent.draftCall (writeEmailPrompt envB.formatUserXml janeUser none),
         CallEvent.critiqueCall "s1",
         CallEvent.draftCall (writeEmailPrompt envB.formatUserXml janeUser
           (some "mention gardening")),
         CallEvent.critiqueCall "s2"] ∧
    countDraftCalls
        [CallEvent.draftCall (writeEmailPrompt envB.formatUserXml janeUser none),
         CallEvent.critiqueCall "s1",
         CallEvent.draftCall (writeEmailPrompt envB.formatUserXml janeUser
           (some "mention gardening")),
         CallEvent.critiqueCall "s2"] = 2 ∧
    ¬ (1 : Nat) ∈ ([2] : List Nat) :=
  ⟨rfl, rfl, rfl, by decide⟩

/-- C6 amended: each draft call overwrites `write_agent_messages` with
its own exchange — the state after the call holds exactly that call's
messages, whatever the history held before. -/
theorem c6_history_replaced {Msg : Type} (env : Env Msg) (s : State Msg)
    (fb : Option String) (em : Email) (msgs : List Msg)
    (hw : env.writer (writeEmailPrompt env.formatUserXml s.user fb) =
      Except.ok (em, msgs)) :
    stepNode env s (Node.writeEmail fb) =
      (CallEvent.draftCall (writeEmailPrompt env.formatUserXml s.user fb),
       Except.ok (Sum.inl (Node.feedback em),
         { s with write_agent_messages := msgs })) := by
  simp only [stepNode, hw]

set_option maxRecDepth 10000 in
/-- C6 witness: a draft call on a state with prior history `[99]` leaves
the history holding only the new exchange `[1]`. -/
theorem c6_history_replaced_witness :
    stepNode envB { user := janeUser, write_agent_messages := [99] }
        (Node.writeEmail none) =
      (CallEvent.draftCall (writeEmailPrompt envB.formatUserXml janeUser none),
       Except.ok (Sum.inl (Node.feedback emB1),
         { user := janeUser, write_agent_messages := [1] })) :=
  c6_history_replaced envB
    { user := janeUser, write_agent_messages := [99] } none emB1 [1]
    (by rfl)

end EmailGen
